import Mathlib

/-!
Verification development for the `esbmc-ai` command-line tool (`src/main.py`).

The program runs the ESBMC verifier on a source file, classifies the verifier's
exit code, seeds an LLM conversation with the source code and the verifier
output, and then serves an interactive command loop.  The definitions below are
a shallow embedding of `src/main.py`; external effects (process spawning,
printing, backend calls, the spinner) are recorded as explicit events.
-/

set_option linter.unusedVariables false

namespace EsbmcAi

/-- A conversational turn, as the dictionaries `{"role": ..., "content": ...}`
built in `build_system_messages` (main.py lines 107-120). -/
structure Msg where
  role : String
  content : String
deriving DecidableEq

/-- Observable effects of a program run: printed lines, spinner start/stop
(`LoadingWidget.start` / `.stop`), one verifier child-process invocation with
its argument vector, one chat-backend call per sent message, and the rendering
of an assistant response (`print_assistant_response`, whose exact print payload
depends on the backend response object and is abstracted into one event). -/
inductive Event where
  | print (s : String)
  | animStart (msg : String)
  | animStop
  | runVerifier (cmd : List String)
  | backendCall (userText : String)
  | renderResponse (content : String)
deriving DecidableEq

def Event.isBackendCall : Event → Bool
  | Event.backendCall _ => true
  | _ => false

def Event.isRunVerifier : Event → Bool
  | Event.runVerifier _ => true
  | _ => false

def hasBackendCall (evs : List Event) : Bool :=
  evs.any Event.isBackendCall

def hasRunVerifier (evs : List Event) : Bool :=
  evs.any Event.isRunVerifier

/-- The argument vectors of all verifier invocations recorded in an event
trace, in order. -/
def verifierCmds : List Event → List (List String)
  | [] => []
  | Event.runVerifier c :: rest => c :: verifierCmds rest
  | _ :: rest => verifierCmds rest

/-- The events produced by `printv` (src/config.py helper used throughout
main.py): prints its argument only in verbose mode. -/
def printvEvents (verbose : Bool) (s : String) : List Event :=
  if verbose then [Event.print s] else []

/-- The single-quote character (codepoint 39). -/
def squote : Char := Char.ofNat 39

/-- Lowercase hexadecimal digit, as used by Python's `\xhh` byte escapes. -/
def hexDigitChar (n : Nat) : Char :=
  if n < 10 then Char.ofNat (48 + n) else Char.ofNat (87 + n)

/-- The quote character chosen by Python's `bytes.__repr__`: a single quote,
unless the bytes contain a single quote and no double quote, in which case a
double quote is used (CPython's smart-quote rule, shared with `str.__repr__`). -/
def quoteChar (bs : List Nat) : Char :=
  if 39 ∈ bs ∧ ¬ 34 ∈ bs then '"' else squote

/-- How Python's `bytes.__repr__` renders one byte, given the chosen quote
character: backslash and the quote are escaped, tab/newline/carriage-return
use their two-character escapes, printable ASCII is literal, everything else
becomes a `\xhh` escape. -/
def pyReprByte (q : Char) (b : Nat) : List Char :=
  if b = 92 then ['\\', '\\']
  else if b = 39 ∧ q = squote then ['\\', squote]
  else if b = 9 then ['\\', 't']
  else if b = 10 then ['\\', 'n']
  else if b = 13 then ['\\', 'r']
  else if 32 ≤ b ∧ b ≤ 126 then [Char.ofNat b]
  else ['\\', 'x', hexDigitChar (b / 16), hexDigitChar (b % 16)]

/-- The escaped body of a Python bytes repr. -/
def pyReprBody (q : Char) : List Nat → List Char
  | [] => []
  | b :: bs => pyReprByte q b ++ pyReprBody q bs

/-- Python's `str(output_bytes)` for a `bytes` object (main.py line 71): the
repr `b` prefix, an opening quote, the escaped bytes, and a closing quote. -/
def pyReprBytes (bs : List Nat) : List Char :=
  'b' :: quoteChar bs :: (pyReprBody (quoteChar bs) bs ++ [quoteChar bs])

/-- Python's `.replace("\\n", "\n")` (main.py lines 71-72) over a character
list: each leftmost non-overlapping occurrence of the two-character sequence
backslash-`n` is replaced by a newline character. -/
def replaceNL : List Char → List Char
  | [] => []
  | '\\' :: 'n' :: rest => '\n' :: replaceNL rest
  | c :: rest => c :: replaceNL rest

/-- Python's `str(None)`: the stderr handle is not piped, so
`process.communicate()` returns `None` for it. -/
def pyStrNone : List Char := ['N', 'o', 'n', 'e']

/-- The verifier command vector built in `esbmc` (main.py lines 62-64):
configured verifier path, then the parameter list, then the target file. -/
def esbmc_cmd (esbmc_path : String) (esbmc_params : List String) (path : String) :
    List String :=
  [esbmc_path] ++ esbmc_params ++ [path]

/-- The run-and-capture part of `esbmc` (main.py lines 67-73).
`Popen(esbmc_cmd, stdout=PIPE)` pipes only standard output, so
`communicate()` yields `(output_bytes, None)`: the child's stderr bytes
(`err_bytes_of_child`) are inherited by the parent terminal and never
captured.  Both captured values go through `str(...)` and
`.replace("\\n", "\n")`, hence the stderr component is always the text
obtained from `str(None)`. -/
def esbmc_run (output_bytes : List Nat) (err_bytes_of_child : List Nat)
    (exit_code : Int) : Int × String × String :=
  let output : String := String.mk (replaceNL (pyReprBytes output_bytes))
  let err : String := String.mk (replaceNL pyStrNone)
  (exit_code, output, err)

/-- Specification-side statement of the normalization applied at main.py lines
71-72: `ReplacesNL input output` holds exactly when `output` is `input` with
each leftmost non-overlapping occurrence of the literal two-character sequence
backslash-`n` replaced by an actual line-break character, every other
character kept. -/
inductive ReplacesNL : List Char → List Char → Prop where
  | nil : ReplacesNL [] []
  | pat : ∀ {rest out : List Char}, ReplacesNL rest out →
      ReplacesNL ('\\' :: 'n' :: rest) ('\n' :: out)
  | keep : ∀ {c : Char} {rest out : List Char},
      ¬(c = '\\' ∧ rest.head? = some 'n') → ReplacesNL rest out →
      ReplacesNL (c :: rest) (c :: out)

/-- The default first prompt (main.py line 19). -/
def DEFAULT_PROMPT : String :=
  "Walk me through the source code, while also explaining the output of ESBMC at the relevant parts. You shall not start the reply with an acknowledgement message such as "
    ++ String.mk [squote] ++ "Certainly" ++ String.mk [squote] ++ "."

/-- The seed transcript built by `build_system_messages` (main.py lines
97-122): the configured override system messages when they are configured
(`config.cfg_sys_msg != ""` — modelled as `some msgs`, with `none` for the
empty-string sentinel), otherwise the built-in default persona messages
`SYSTEM_MSG_DEFAULT` (imported from `src.chat` and passed here as the
`sysDefault` parameter); then the source-code injection pair and the
ESBMC-output injection pair, each a system message acknowledged by an
assistant "OK". -/
def build_system_messages (sysDefault : List Msg) (cfg_sys_msg : Option (List Msg))
    (source_code : String) (esbmc_output : String) : List Msg :=
  let base : List Msg :=
    match cfg_sys_msg with
    | some msgs => msgs
    | none => sysDefault
  base ++
    [⟨"system", "Reply OK if you understand that the following text is the program source code: " ++ source_code⟩,
     ⟨"assistant", "OK"⟩,
     ⟨"system", "Reply OK if you understand that the following text is the output from ESBMC after reading the program source code: " ++ esbmc_output⟩,
     ⟨"assistant", "OK"⟩]

/-- Modelled from the spec: the transcript effect of `ChatInterface.send_message`
(`src/chat.py` is not among the sources).  Per the spec it appends the user
message, performs one backend call, and appends the assistant reply; the reply
content is a parameter since the backend is external. -/
def send_message_history (history : List Msg) (userText : String) (reply : String) :
    List Msg :=
  history ++ [⟨"user", userText⟩, ⟨"assistant", reply⟩]

/-- The spinner pattern of main.py (lines 183-185, 215-217, 220-222, 239-241):
`anim.start(msg)`, then the blocking call, then `anim.stop()`.  The call is a
pair of the events it emits and its outcome; there is no `try/finally`, so when
the call raises, control propagates past `anim.stop()` exactly as in Python. -/
def runWithIndicator {ε α : Type} (msg : String) (call : List Event × Except ε α) :
    List Event × Except ε α :=
  match call with
  | (evs, Except.ok a) => ([Event.animStart msg] ++ evs ++ [Event.animStop], Except.ok a)
  | (evs, Except.error e) => ([Event.animStart msg] ++ evs, Except.error e)

/-- Modelled from the spec: the configuration provider (`src/config.py` is not
among the sources).  The spec's configuration source exposes the verifier path,
the verifier default parameters, the model identifier, optional override system
messages (`cfg_sys_msg`, empty-string sentinel modelled as `none`), an optional
override initial prompt (falsy empty string modelled as `none`), and the
verbose flag set from the command line. -/
structure Config where
  esbmc_path : String
  esbmc_params : List String
  cfg_sys_msg : Option (List Msg)
  cfg_initial_prompt : Option String
  ai_model : String
  verbose : Bool

/-- The external facts one program run depends on: whether the `.env`
credential file and the verifier binary exist, the target file's content, and
the verifier child process's behavior (its stdout bytes, its stderr bytes, its
exit code). -/
structure World where
  envExists : Bool
  esbmcExists : Bool
  sourceCode : String
  childStdout : List Nat
  childStderr : List Nat
  childExit : Int

/-- Result of the start-up portion of `main` (main.py lines 125-224): either
the process ends with an exit status, or it reaches the interactive loop with
the chat transcript seeded. -/
inductive MainOutcome where
  | earlyExit (events : List Event) (status : Nat)
  | reachLoop (events : List Event) (history : List Msg)

def MainOutcome.events : MainOutcome → List Event
  | MainOutcome.earlyExit e _ => e
  | MainOutcome.reachLoop e _ => e

def MainOutcome.exitStatus : MainOutcome → Option Nat
  | MainOutcome.earlyExit _ s => some s
  | MainOutcome.reachLoop _ _ => none

/-- The start-up portion of `main` (main.py lines 125-224), from the banner to
the point where the interactive loop is entered.  `remaining` is the parsed
remainder of the command line (main.py lines 133-137); like main.py, which
calls `esbmc(args.filename)` at line 184 with the default `esbmc_params` bound
to `config.esbmc_params`, this function never forwards `remaining` to the
verifier.  The single backend reply needed before the loop is `reply0`.  The
verbose parameter-list print renders the list with Lean's `toString` where
Python prints the list repr; no claim depends on that payload. -/
def mainModel (cfg : Config) (sysDefault : List Msg) (w : World)
    (filename : String) (remaining : List String) (reply0 : String) : MainOutcome :=
  let e0 : List Event := [Event.print "ESBMC-AI", Event.print ""]
  let e1 := e0 ++ printvEvents cfg.verbose "Performing init health check..."
  if w.envExists then
    let e2 := e1 ++ printvEvents cfg.verbose "Environment file has been located"
      ++ printvEvents cfg.verbose "Performing health check..."
    if w.esbmcExists then
      let e3 := e2 ++ printvEvents cfg.verbose "ESBMC has been located"
        ++ printvEvents cfg.verbose "Reading source code..."
        ++ printvEvents cfg.verbose ("Running ESBMC with " ++ toString cfg.esbmc_params)
      let cmd := esbmc_cmd cfg.esbmc_path cfg.esbmc_params filename
      let res := esbmc_run w.childStdout w.childStderr w.childExit
      let e4 := e3 ++ (runWithIndicator "ESBMC is processing... Please Wait"
        (([Event.runVerifier cmd], (Except.ok res : Except Unit (Int × String × String))))).1
      if w.childExit = 0 then
        MainOutcome.earlyExit (e4 ++ [Event.print "Success!", Event.print res.2.1]) 0
      else if w.childExit ≠ 1 then
        MainOutcome.earlyExit
          (e4 ++ [Event.print ("ESBMC exit code: " ++ toString w.childExit)]) 1
      else
        let e5 := e4 ++ printvEvents cfg.verbose "Initializing OpenAI"
          ++ printvEvents cfg.verbose "Loading system messages"
        let sys := build_system_messages sysDefault cfg.cfg_sys_msg w.sourceCode res.2.1
        let e6 := e5 ++ printvEvents cfg.verbose ("Using AI Model: " ++ cfg.ai_model)
        match cfg.cfg_initial_prompt with
        | some p =>
          let e7 := e6 ++ printvEvents cfg.verbose "Using initial prompt from file...\n"
            ++ (runWithIndicator "Model is parsing ESBMC output... Please Wait"
                (([Event.backendCall p], (Except.ok reply0 : Except Unit String)))).1
            ++ [Event.renderResponse reply0]
          MainOutcome.reachLoop e7 (send_message_history sys p reply0)
        | none =>
          let e7 := e6 ++ printvEvents cfg.verbose "Using default initial prompts...\n"
            ++ (runWithIndicator "Model is parsing ESBMC output... Please Wait"
                (([Event.backendCall DEFAULT_PROMPT], (Except.ok reply0 : Except Unit String)))).1
            ++ [Event.renderResponse reply0]
          MainOutcome.reachLoop e7 (send_message_history sys DEFAULT_PROMPT reply0)
    else
      MainOutcome.earlyExit
        (e2 ++ [Event.print ("Error: ESBMC could not be found in " ++ cfg.esbmc_path)]) 3
  else
    MainOutcome.earlyExit
      (e1 ++ [Event.print "Error: .env file is not found in project directory"]) 3

/-- The prints of `print_help` (main.py lines 22-27). -/
def helpEvents : List Event :=
  [Event.print "", Event.print "Commands:",
   Event.print "/help: Print this help message.",
   Event.print "/exit: Exit the program.", Event.print ""]

/-- One step of the interactive loop: either the process exits or the loop
continues with a possibly updated transcript. -/
inductive LoopStep where
  | exited (events : List Event) (status : Nat)
  | continued (events : List Event) (history : List Msg)

/-- One iteration of the interactive loop body (main.py lines 226-243), acting
on the line read from the operator: exact match with "/exit" ends the process
with status 0, exact match with "/help" prints the command list, the empty
line does nothing, and any other line is printed after a blank line, wrapped in
the spinner, and sent to the backend as a free-text user message, appending a
user/assistant pair to the transcript. -/
def loopStep (reply : String) (st : List Msg) (line : String) : LoopStep :=
  if line = "/exit" then LoopStep.exited [Event.print "exiting..."] 0
  else if line = "/help" then LoopStep.continued helpEvents st
  else if line = "" then LoopStep.continued [] st
  else
    LoopStep.continued
      ([Event.print ""] ++
        (runWithIndicator "Generating response... Please Wait"
          (([Event.backendCall line], (Except.ok reply : Except Unit String)))).1 ++
        [Event.renderResponse reply])
      (send_message_history st line reply)

/-- Outcome of running the interactive loop on a list of input lines. -/
structure LoopRunOut where
  events : List Event
  exitStatus : Option Nat
  history : List Msg

/-- Iterate `loopStep` over a list of operator input lines (the backend reply
to every free-text message is `reply`); stops early when a step exits the
process. -/
def loopRun (reply : String) : List Msg → List String → LoopRunOut
  | st, [] => ⟨[], none, st⟩
  | st, line :: rest =>
    match loopStep reply st line with
    | LoopStep.exited evs status => ⟨evs, some status, st⟩
    | LoopStep.continued evs st2 =>
      let r := loopRun reply st2 rest
      ⟨evs ++ r.events, r.exitStatus, r.history⟩

/-- The events a sequence of no-op inputs produces: nothing for an empty line,
the command list for "/help". -/
def noopEvents : List String → List Event
  | [] => []
  | l :: ls => (if l = "/help" then helpEvents else []) ++ noopEvents ls

/-- Concrete configuration used by the closed instances below. -/
def cfgA : Config :=
  ⟨"/usr/bin/esbmc", ["--no-bounds-check"], none, none, "gpt-3.5-turbo", false⟩

/-- Concrete world: both preconditions hold and the verifier reports success. -/
def worldOk : World := ⟨true, true, "int main()", [86, 79, 75], [], 0⟩

/-- Concrete world: the `.env` credential file is missing. -/
def worldNoEnv : World := ⟨false, true, "int main()", [], [], 1⟩

/-! ### Helper lemmas -/

@[simp] lemma hasBackendCall_nil : hasBackendCall [] = false := rfl

@[simp] lemma hasBackendCall_cons (e : Event) (l : List Event) :
    hasBackendCall (e :: l) = (e.isBackendCall || hasBackendCall l) := by
  simp [hasBackendCall]

@[simp] lemma hasBackendCall_append (a b : List Event) :
    hasBackendCall (a ++ b) = (hasBackendCall a || hasBackendCall b) := by
  simp [hasBackendCall]

@[simp] lemma hasBackendCall_printv (v : Bool) (s : String) :
    hasBackendCall (printvEvents v s) = false := by
  cases v <;> simp [printvEvents, Event.isBackendCall]

@[simp] lemma hasRunVerifier_nil : hasRunVerifier [] = false := rfl

@[simp] lemma hasRunVerifier_cons (e : Event) (l : List Event) :
    hasRunVerifier (e :: l) = (e.isRunVerifier || hasRunVerifier l) := by
  simp [hasRunVerifier]

@[simp] lemma hasRunVerifier_append (a b : List Event) :
    hasRunVerifier (a ++ b) = (hasRunVerifier a || hasRunVerifier b) := by
  simp [hasRunVerifier]

@[simp] lemma hasRunVerifier_printv (v : Bool) (s : String) :
    hasRunVerifier (printvEvents v s) = false := by
  cases v <;> simp [printvEvents, Event.isRunVerifier]

lemma replaceNL_singleton (c : Char) : replaceNL [c] = [c] := by
  simp [replaceNL]

lemma replaceNL_cons_of_ne (c : Char) (l : List Char) (hc : c ≠ '\\') :
    replaceNL (c :: l) = c :: replaceNL l := by
  cases l with
  | nil => simp [replaceNL]
  | cons d t => simp [replaceNL, hc]

lemma replaceNL_pat (l : List Char) :
    replaceNL ('\\' :: 'n' :: l) = '\n' :: replaceNL l := by
  simp [replaceNL]

lemma replaceNL_backslash_of_ne (c2 : Char) (l : List Char) (h : c2 ≠ 'n') :
    replaceNL ('\\' :: c2 :: l) = '\\' :: replaceNL (c2 :: l) := by
  simp [replaceNL, h]

/-- The function of main.py lines 71-72 realizes the occurrence-by-occurrence
replacement relation. -/
lemma replacesNL_replaceNL : ∀ l : List Char, ReplacesNL l (replaceNL l) := by
  intro l
  induction l using replaceNL.induct with
  | case1 => exact ReplacesNL.nil
  | case2 rest ih =>
    rw [replaceNL_pat]
    exact ReplacesNL.pat ih
  | case3 c rest h ih =>
    have heq : replaceNL (c :: rest) = c :: replaceNL rest := by
      by_cases hc : c = '\\'
      · subst hc
        cases rest with
        | nil => simp [replaceNL]
        | cons d t =>
          have hd : d ≠ 'n' := fun hdn => h t rfl (by rw [hdn])
          exact replaceNL_backslash_of_ne d t hd
      · exact replaceNL_cons_of_ne c rest hc
    rw [heq]
    refine ReplacesNL.keep ?_ ih
    rintro ⟨hc, hh⟩
    cases rest with
    | nil => simp at hh
    | cons d t =>
      simp only [List.head?_cons, Option.some.injEq] at hh
      exact h t hc (by rw [hh])

/-- Appending a terminal character that is not `n` survives the replacement:
the result still ends with that character. -/
lemma replaceNL_concat (q : Char) (hq : q ≠ 'n') :
    ∀ (n : Nat) (l : List Char), l.length ≤ n →
      ∃ t, replaceNL (l ++ [q]) = t ++ [q] := by
  intro n
  induction n with
  | zero =>
    intro l hl
    have hnil : l = [] := List.eq_nil_of_length_eq_zero (Nat.le_zero.mp hl)
    subst hnil
    exact ⟨[], by simp [replaceNL]⟩
  | succ n ih =>
    intro l hl
    cases l with
    | nil => exact ⟨[], by simp [replaceNL]⟩
    | cons c t =>
      cases t with
      | nil =>
        refine ⟨[c], ?_⟩
        show replaceNL [c, q] = [c] ++ [q]
        by_cases hc : c = '\\'
        · subst hc
          rw [replaceNL_backslash_of_ne q [] hq, replaceNL_singleton]
          rfl
        · rw [replaceNL_cons_of_ne c [q] hc, replaceNL_singleton]
          rfl
      | cons d t2 =>
        have hlen : t2.length + 2 ≤ n + 1 := by simpa using hl
        by_cases hp : c = '\\' ∧ d = 'n'
        · obtain ⟨hc, hd⟩ := hp
          subst hc; subst hd
          obtain ⟨t3, ht⟩ := ih t2 (by omega)
          refine ⟨'\n' :: t3, ?_⟩
          show replaceNL ('\\' :: 'n' :: (t2 ++ [q])) = ('\n' :: t3) ++ [q]
          rw [replaceNL_pat, ht]
          rfl
        · obtain ⟨t3, ht⟩ := ih (d :: t2) (by simp; omega)
          refine ⟨c :: t3, ?_⟩
          have hstep : replaceNL (c :: d :: (t2 ++ [q])) = c :: replaceNL (d :: (t2 ++ [q])) := by
            by_cases hc : c = '\\'
            · subst hc
              have hd : d ≠ 'n' := fun hdn => hp ⟨rfl, hdn⟩
              exact replaceNL_backslash_of_ne d (t2 ++ [q]) hd
            · exact replaceNL_cons_of_ne c (d :: (t2 ++ [q])) hc
          show replaceNL (c :: d :: (t2 ++ [q])) = (c :: t3) ++ [q]
          rw [hstep]
          have : replaceNL ((d :: t2) ++ [q]) = t3 ++ [q] := ht
          simpa using this

lemma loopStep_help (reply : String) (st : List Msg) :
    loopStep reply st "/help" = LoopStep.continued helpEvents st := by
  simp only [loopStep]
  rw [if_neg (by decide)]
  simp

lemma loopStep_empty (reply : String) (st : List Msg) :
    loopStep reply st "" = LoopStep.continued [] st := by
  simp only [loopStep]
  rw [if_neg (by decide), if_neg (by decide)]
  simp

lemma quoteChar_ne_backslash (bs : List Nat) : quoteChar bs ≠ '\\' := by
  unfold quoteChar
  split <;> decide

lemma quoteChar_ne_n (bs : List Nat) : quoteChar bs ≠ 'n' := by
  unfold quoteChar
  split <;> decide

/-! ### Claims about the verifier runner -/

/-- C3 counterexample: the child process writes the bytes of "boom" to its
standard error, yet the triple returned by the runner carries the text "None"
in its stderr component — identical to a run where the child wrote nothing —
so standard error is not captured and returned as text. -/
theorem c3_counterexample :
    (esbmc_run [] [98, 111, 111, 109] 1).2.2 = "None" ∧
    (esbmc_run [] [98, 111, 111, 109] 1).2.2 ≠ "boom" ∧
    esbmc_run [] [98, 111, 111, 109] 1 = esbmc_run [] [] 1 :=
  ⟨by decide, by decide, rfl⟩

/-- C3 amended: the runner captures the child's standard output fully and
returns it (converted and normalized) together with the exit code, but
standard error is not piped: the stderr component of the returned triple is
always the literal text "None" (Python's `str(None)`), independent of whatever
the child wrote to its standard error. -/
theorem c3_amended (out e1 e2 : List Nat) (code : Int) :
    (esbmc_run out e1 code).2.2 = "None" ∧
    esbmc_run out e1 code = esbmc_run out e2 code ∧
    (esbmc_run out e1 code).1 = code ∧
    (esbmc_run out e1 code).2.1 = String.mk (replaceNL (pyReprBytes out)) :=
  ⟨rfl, rfl, rfl, rfl⟩

/-- C6: for every byte output of the verifier child process, each leftmost
occurrence of the literal two-character sequence backslash-`n` in the
converted text (`str(output_bytes)` resp. `str(err_bytes)`) is replaced by an
actual line-break character in the stdout and stderr strings returned by the
runner, and all other characters are kept. -/
theorem c6_newline_normalization (out err : List Nat) (code : Int) :
    ReplacesNL (pyReprBytes out) ((esbmc_run out err code).2.1).toList ∧
    ReplacesNL pyStrNone ((esbmc_run out err code).2.2).toList :=
  ⟨replacesNL_replaceNL (pyReprBytes out), replacesNL_replaceNL pyStrNone⟩

/-- C9 counterexample: when the verifier's stdout bytes consist of the single
byte 39 (an ASCII single quote), Python's bytes repr chooses double quotes, so
the stdout text handed to the bootstrap step starts with `b` followed by a
double quote, not a single quote. -/
theorem c9_counterexample :
    ((esbmc_run [39] [] 1).2.1).toList.take 2 ≠ ['b', squote] ∧
    ((esbmc_run [39] [] 1).2.1).toList.take 2 = ['b', '"'] :=
  ⟨by decide, by decide⟩

/-- C9 amended: the stdout text returned by the runner is the Python repr of
the captured bytes with each backslash-`n` occurrence replaced by a line
break; it begins with the character `b` followed by a quote character — a
single quote, unless the captured bytes contain a single-quote byte and no
double-quote byte, in which case a double quote — and it ends with that same
quote character. -/
theorem c9_amended (out err : List Nat) (code : Int) :
    ReplacesNL (pyReprBytes out) ((esbmc_run out err code).2.1).toList ∧
    ∃ t, ((esbmc_run out err code).2.1).toList =
      'b' :: quoteChar out :: (t ++ [quoteChar out]) := by
  constructor
  · exact replacesNL_replaceNL (pyReprBytes out)
  · have hs : ((esbmc_run out err code).2.1).toList = replaceNL (pyReprBytes out) := rfl
    rw [hs]
    show ∃ t, replaceNL ('b' :: quoteChar out ::
      (pyReprBody (quoteChar out) out ++ [quoteChar out])) =
      'b' :: quoteChar out :: (t ++ [quoteChar out])
    rw [replaceNL_cons_of_ne 'b' _ (by decide)]
    rw [replaceNL_cons_of_ne (quoteChar out) _ (quoteChar_ne_backslash out)]
    obtain ⟨t, ht⟩ := replaceNL_concat (quoteChar out) (quoteChar_ne_n out)
      (pyReprBody (quoteChar out) out).length (pyReprBody (quoteChar out) out)
      (Nat.le_refl _)
    exact ⟨t, by rw [ht]⟩

/-! ### Claims about the spinner, the bootstrap transcript and the verifier
command line -/

/-- C4 counterexample: around a backend call that raises, the spinner started
before the call is not stopped — the stop event is absent from the trace of
the raising path, because main.py wraps no `try/finally` around
`anim.start(...)` / call / `anim.stop()`. -/
theorem c4_counterexample :
    Event.animStop ∉ (runWithIndicator "Generating response... Please Wait"
      (([Event.backendCall "hi"], (Except.error () : Except Unit String)))).1 := by
  decide

/-- C4 amended: the spinner started before the verifier invocation and before
each backend call is stopped when the call returns normally, but it is not
stopped when the call raises — the exception propagates past the stop call. -/
theorem c4_amended {ε α : Type} (msg : String) (evs : List Event) (a : α) (e : ε)
    (hb : Event.animStop ∉ evs) :
    Event.animStop ∈ (runWithIndicator msg (((evs, Except.ok a) : List Event × Except ε α))).1 ∧
    Event.animStop ∉ (runWithIndicator msg (((evs, Except.error e) : List Event × Except ε α))).1 := by
  constructor
  · simp [runWithIndicator]
  · simp [runWithIndicator, hb]

/-- C4 witness: the amended statement at a concrete instance. -/
theorem c4_witness :
    Event.animStop ∉ ([] : List Event) ∧
    (Event.animStop ∈ (runWithIndicator "ESBMC is processing... Please Wait"
        ((([], Except.ok ()) : List Event × Except Unit Unit))).1 ∧
     Event.animStop ∉ (runWithIndicator "ESBMC is processing... Please Wait"
        ((([], Except.error ()) : List Event × Except Unit Unit))).1) :=
  ⟨by decide, @c4_amended Unit Unit "ESBMC is processing... Please Wait" [] () () (by decide)⟩

/-- C5: the seed transcript is the configured override system messages when
one is configured (otherwise the built-in default persona messages), followed
by the source-code system message acknowledged by "OK", followed by the
verifier-output system message acknowledged by "OK", in that exact order. -/
theorem c5_bootstrap_transcript (sysDefault : List Msg) (cfg : Option (List Msg))
    (src out : String) :
    build_system_messages sysDefault cfg src out =
      cfg.getD sysDefault ++
      [Msg.mk "system" ("Reply OK if you understand that the following text is the program source code: " ++ src),
       Msg.mk "assistant" "OK",
       Msg.mk "system" ("Reply OK if you understand that the following text is the output from ESBMC after reading the program source code: " ++ out),
       Msg.mk "assistant" "OK"] := by
  cases cfg <;> simp [build_system_messages, Option.getD]

/-- C2 (code bug evidence): invoked as `main.py file.c --unwind 5`, the
program runs the verifier exactly once, with the argument vector
`[configured path] ++ configured default parameters ++ [file path]`; the
operator-supplied remainder `--unwind 5` appears nowhere in it, contradicting
both the claim and main.py's own `--help` text for the `remaining` argument. -/
theorem c2_remainder_args_dropped :
    verifierCmds (mainModel cfgA [] worldOk "file.c" ["--unwind", "5"] "reply").events =
      [["/usr/bin/esbmc", "--no-bounds-check", "file.c"]] ∧
    "--unwind" ∉ (["/usr/bin/esbmc", "--no-bounds-check", "file.c"] : List String) ∧
    "5" ∉ (["/usr/bin/esbmc", "--no-bounds-check", "file.c"] : List String) := by
  refine ⟨by decide, by decide, by decide⟩

/-! ### Claims about the start-up control flow -/

/-- C1: exit code 0 makes the program print "Success!" followed by the
verifier's stdout text as the last two outputs and end with process status 0
without any backend call; exit code 1 makes it proceed to the LLM phase (it
does not exit, and a backend call happens); any other exit code makes it print
the raw exit code and end with process status 1, again without any backend
call. -/
theorem c1_exit_code_classification (cfg : Config) (sysDefault : List Msg) (w : World)
    (filename : String) (remaining : List String) (reply0 : String)
    (henv : w.envExists = true) (hesb : w.esbmcExists = true) :
    (w.childExit = 0 →
      (mainModel cfg sysDefault w filename remaining reply0).exitStatus = some 0 ∧
      (mainModel cfg sysDefault w filename remaining reply0).events.reverse.take 2 =
        [Event.print (esbmc_run w.childStdout w.childStderr w.childExit).2.1,
         Event.print "Success!"] ∧
      hasBackendCall (mainModel cfg sysDefault w filename remaining reply0).events = false) ∧
    (w.childExit = 1 →
      (mainModel cfg sysDefault w filename remaining reply0).exitStatus = none ∧
      hasBackendCall (mainModel cfg sysDefault w filename remaining reply0).events = true) ∧
    (w.childExit ≠ 0 → w.childExit ≠ 1 →
      (mainModel cfg sysDefault w filename remaining reply0).exitStatus = some 1 ∧
      Event.print ("ESBMC exit code: " ++ toString w.childExit) ∈
        (mainModel cfg sysDefault w filename remaining reply0).events ∧
      hasBackendCall (mainModel cfg sysDefault w filename remaining reply0).events = false) := by
  refine ⟨?_, ?_, ?_⟩
  · intro h0
    refine ⟨?_, ?_, ?_⟩ <;>
      simp [mainModel, henv, hesb, h0, MainOutcome.exitStatus, MainOutcome.events,
        runWithIndicator, Event.isBackendCall]
  · intro h1
    cases hip : cfg.cfg_initial_prompt <;>
      refine ⟨?_, ?_⟩ <;>
        simp [mainModel, henv, hesb, h1, hip, MainOutcome.exitStatus, MainOutcome.events,
          runWithIndicator, Event.isBackendCall]
  · intro h0 h1
    refine ⟨?_, ?_, ?_⟩ <;>
      simp [mainModel, henv, hesb, h0, h1, MainOutcome.exitStatus, MainOutcome.events,
        runWithIndicator, Event.isBackendCall]

/-- C1 witness: the classification at a concrete run whose verifier exits 0. -/
theorem c1_witness :
    (worldOk.envExists = true ∧ worldOk.esbmcExists = true) ∧
    ((worldOk.childExit = 0 →
      (mainModel cfgA [] worldOk "file.c" [] "reply").exitStatus = some 0 ∧
      (mainModel cfgA [] worldOk "file.c" [] "reply").events.reverse.take 2 =
        [Event.print (esbmc_run worldOk.childStdout worldOk.childStderr worldOk.childExit).2.1,
         Event.print "Success!"] ∧
      hasBackendCall (mainModel cfgA [] worldOk "file.c" [] "reply").events = false) ∧
    (worldOk.childExit = 1 →
      (mainModel cfgA [] worldOk "file.c" [] "reply").exitStatus = none ∧
      hasBackendCall (mainModel cfgA [] worldOk "file.c" [] "reply").events = true) ∧
    (worldOk.childExit ≠ 0 → worldOk.childExit ≠ 1 →
      (mainModel cfgA [] worldOk "file.c" [] "reply").exitStatus = some 1 ∧
      Event.print ("ESBMC exit code: " ++ toString worldOk.childExit) ∈
        (mainModel cfgA [] worldOk "file.c" [] "reply").events ∧
      hasBackendCall (mainModel cfgA [] worldOk "file.c" [] "reply").events = false)) :=
  ⟨⟨rfl, rfl⟩, c1_exit_code_classification cfgA [] worldOk "file.c" [] "reply" rfl rfl⟩

/-- C7: when the `.env` credential file is missing, or the verifier binary is
not found at the configured path, the program ends with process status 3
having printed the corresponding one-line diagnostic, without any verifier
invocation and without any backend interaction. -/
theorem c7_startup_preconditions (cfg : Config) (sysDefault : List Msg) (w : World)
    (filename : String) (remaining : List String) (reply0 : String)
    (h : w.envExists = false ∨ w.esbmcExists = false) :
    (mainModel cfg sysDefault w filename remaining reply0).exitStatus = some 3 ∧
    hasBackendCall (mainModel cfg sysDefault w filename remaining reply0).events = false ∧
    hasRunVerifier (mainModel cfg sysDefault w filename remaining reply0).events = false ∧
    (Event.print "Error: .env file is not found in project directory" ∈
        (mainModel cfg sysDefault w filename remaining reply0).events ∨
     Event.print ("Error: ESBMC could not be found in " ++ cfg.esbmc_path) ∈
        (mainModel cfg sysDefault w filename remaining reply0).events) := by
  rcases h with henv | hesb
  · refine ⟨?_, ?_, ?_, Or.inl ?_⟩ <;>
      simp [mainModel, henv, MainOutcome.exitStatus, MainOutcome.events,
        Event.isBackendCall, Event.isRunVerifier]
  · cases henv : w.envExists
    · refine ⟨?_, ?_, ?_, Or.inl ?_⟩ <;>
        simp [mainModel, henv, MainOutcome.exitStatus, MainOutcome.events,
          Event.isBackendCall, Event.isRunVerifier]
    · refine ⟨?_, ?_, ?_, Or.inr ?_⟩ <;>
        simp [mainModel, henv, hesb, MainOutcome.exitStatus, MainOutcome.events,
          Event.isBackendCall, Event.isRunVerifier]

/-- C7 witness: the precondition failure at a concrete run with a missing
`.env` file. -/
theorem c7_witness :
    (worldNoEnv.envExists = false ∨ worldNoEnv.esbmcExists = false) ∧
    ((mainModel cfgA [] worldNoEnv "file.c" [] "reply").exitStatus = some 3 ∧
     hasBackendCall (mainModel cfgA [] worldNoEnv "file.c" [] "reply").events = false ∧
     hasRunVerifier (mainModel cfgA [] worldNoEnv "file.c" [] "reply").events = false ∧
     (Event.print "Error: .env file is not found in project directory" ∈
        (mainModel cfgA [] worldNoEnv "file.c" [] "reply").events ∨
      Event.print ("Error: ESBMC could not be found in " ++ cfgA.esbmc_path) ∈
        (mainModel cfgA [] worldNoEnv "file.c" [] "reply").events)) :=
  ⟨Or.inl rfl, c7_startup_preconditions cfgA [] worldNoEnv "file.c" [] "reply" (Or.inl rfl)⟩

/-! ### Claims about the interactive loop -/

/-- C8: any sequence of empty lines and "/help" lines, in any order, leaves
the transcript unchanged, performs no backend call, never exits the loop, and
prints nothing beyond the fixed command list for each "/help". -/
theorem c8_noop_commands (reply : String) (st : List Msg) (lines : List String)
    (h : ∀ l ∈ lines, l = "" ∨ l = "/help") :
    loopRun reply st lines = ⟨noopEvents lines, none, st⟩ ∧
    hasBackendCall (noopEvents lines) = false := by
  induction lines with
  | nil => exact ⟨rfl, rfl⟩
  | cons l ls ih =>
    have hd := h l (List.mem_cons_self l ls)
    have ht : ∀ x ∈ ls, x = "" ∨ x = "/help" :=
      fun x hx => h x (List.mem_cons_of_mem l hx)
    obtain ⟨ih1, ih2⟩ := ih ht
    rcases hd with h1 | h1 <;> subst h1
    · constructor
      · show loopRun reply st ("" :: ls) = _
        simp only [loopRun, loopStep_empty, ih1]
        simp [noopEvents]
      · simp [noopEvents, ih2]
    · constructor
      · show loopRun reply st ("/help" :: ls) = _
        simp only [loopRun, loopStep_help, ih1]
        simp [noopEvents]
      · simp [noopEvents, ih2, helpEvents, Event.isBackendCall]

/-- C8 witness: a concrete sequence of no-op inputs. -/
theorem c8_witness :
    (∀ l ∈ (["", "/help", "", "/help"] : List String), l = "" ∨ l = "/help") ∧
    (loopRun "reply" [Msg.mk "system" "persona"] ["", "/help", "", "/help"] =
        ⟨noopEvents ["", "/help", "", "/help"], none, [Msg.mk "system" "persona"]⟩ ∧
     hasBackendCall (noopEvents ["", "/help", "", "/help"]) = false) :=
  ⟨by decide, c8_noop_commands "reply" [Msg.mk "system" "persona"]
    ["", "/help", "", "/help"] (by decide)⟩

/-- C10: commands are recognized by exact string equality only — any line
other than exactly "/exit", "/help" or the empty string (including
whitespace-padded commands and unrecognized slash-words) is printed after a
blank line, wrapped in the spinner, sent to the backend as a free-text user
message, and appended to the transcript as a user/assistant pair. -/
theorem c10_exact_command_match (reply : String) (st : List Msg) (line : String)
    (h1 : line ≠ "/exit") (h2 : line ≠ "/help") (h3 : line ≠ "") :
    loopStep reply st line =
      LoopStep.continued
        [Event.print "", Event.animStart "Generating response... Please Wait",
         Event.backendCall line, Event.animStop, Event.renderResponse reply]
        (st ++ [Msg.mk "user" line, Msg.mk "assistant" reply]) := by
  simp only [loopStep]
  rw [if_neg h1, if_neg h2, if_neg h3]
  simp [runWithIndicator, send_message_history]

/-- C10 witness: a whitespace-padded "/exit" is not recognized as a command
and goes to the backend as a free-text message. -/
theorem c10_witness :
    ((" /exit" : String) ≠ "/exit" ∧ (" /exit" : String) ≠ "/help" ∧
     (" /exit" : String) ≠ "") ∧
    loopStep "ok" [] " /exit" =
      LoopStep.continued
        [Event.print "", Event.animStart "Generating response... Please Wait",
         Event.backendCall " /exit", Event.animStop, Event.renderResponse "ok"]
        ([] ++ [Msg.mk "user" " /exit", Msg.mk "assistant" "ok"]) :=
  ⟨⟨by decide, by decide, by decide⟩,
   c10_exact_command_match "ok" [] " /exit" (by decide) (by decide) (by decide)⟩

end EsbmcAi
